import Mathlib

/-!
Shallow embedding of the pdf-to-excel-converter pipeline
(`src/boq_parser.py`, `src/spec_sheet_parser.py`, `src/pdf_to_excel.py`,
`src/excel_generator.py`) and proofs about its classification,
extraction and report-building logic.

Strings are modelled as Lean `String` (lists of characters); Python's
substring test, `str.strip`, `str.title`, `str.lower`/`str.upper` and the
few regular-expression patterns the source uses are translated explicitly
below, next to the definitions that use them.
-/

namespace Spec2Proof

/-- Python's whitespace class (`\s` for ASCII text, and the characters
stripped by `str.strip`): space, tab, newline, carriage return, vertical
tab, form feed. -/
def isSpaceChar (c : Char) : Bool :=
  c == ' ' || c == '\t' || c == '\n' || c == '\r' || c == '\x0b' || c == '\x0c'

/-- `startsWithSeq hay needle`: `needle` is a prefix of `hay`. -/
def startsWithSeq : List Char → List Char → Bool
  | _, [] => true
  | [], _ :: _ => false
  | a :: as, b :: bs => a == b && startsWithSeq as bs

/-- `containsSeq hay needle`: `needle` occurs contiguously inside `hay`. -/
def containsSeq : List Char → List Char → Bool
  | [], needle => needle.isEmpty
  | hay@(_ :: t), needle => startsWithSeq hay needle || containsSeq t needle

/-- Python's `needle in hay` substring test on strings. -/
def strContains (hay needle : String) : Bool :=
  containsSeq hay.data needle.data

/-- Python `str.strip()`: drop leading and trailing whitespace. -/
def pyStrip (s : List Char) : List Char :=
  ((s.dropWhile isSpaceChar).reverse.dropWhile isSpaceChar).reverse

/-- Python `str.lower()` (ASCII, which covers every string the source
lower-cases; characters such as `°` are unchanged by both). -/
def pyLower (s : String) : String :=
  ⟨s.data.map Char.toLower⟩

/-- Python `str.upper()` (ASCII). -/
def pyUpper (s : String) : String :=
  ⟨s.data.map Char.toUpper⟩

/-- Helper for `pyTitle`: the Boolean records whether the previous
character was alphabetic (cased). -/
def pyTitleAux : List Char → Bool → List Char
  | [], _ => []
  | c :: cs, prevAlpha =>
    (if c.isAlpha then (if prevAlpha then c.toLower else c.toUpper) else c)
      :: pyTitleAux cs c.isAlpha

/-- Python `str.title()`: upper-case the first letter of every
alphabetic run, lower-case the rest. -/
def pyTitle (s : String) : String :=
  ⟨pyTitleAux s.data false⟩

/-! ## BOQParser (`src/boq_parser.py`)

`_extract_unit` and `_categorize_smoke_detector_item` are pure
first-match scans; `parse_boq_structure` is the text-mode line extractor
built on the regular expression
`^(\d+\.?\d*)\s+(.+?)(?:\s+(\d+(?:\.\d+)?))?\s*$` applied to each
stripped line. -/

/-- The ordered unit-token list of `_extract_unit`. -/
def units : List String :=
  ["nos", "no", "pcs", "pc", "set", "meter", "m", "ft", "each", "ea"]

/-- `BOQParser._extract_unit`: lower-case the description, return the
upper-cased first token of `units` occurring as a substring, else
`"NOS"`. -/
def extract_unit (description : String) : String :=
  match units.find? (fun u => strContains (pyLower description) u) with
  | some u => pyUpper u
  | none => "NOS"

/-- The ordered category table of `_categorize_smoke_detector_item`
(Python dicts preserve insertion order, so iteration order is the
source order). -/
def categories : List (String × List String) :=
  [("Smoke Detectors",
      ["smoke detector", "smoke alarm", "photoelectric", "ionization", "heat detector"]),
   ("Control Panels",
      ["control panel", "facp", "fire alarm control", "annunciator", "repeater panel"]),
   ("Notification Devices",
      ["horn", "strobe", "bell", "siren", "speaker", "notification"]),
   ("Initiation Devices",
      ["pull station", "manual pull", "call point", "break glass"]),
   ("Installation Materials",
      ["conduit", "wire", "cable", "junction box", "mounting bracket", "backbox"]),
   ("Testing Equipment",
      ["test kit", "test meter", "megger", "smoke detector tester"]),
   ("Accessories",
      ["battery", "power supply", "transformer", "relay", "module"]),
   ("System Components",
      ["addressable", "conventional", "analog", "beam detector", "duct detector"])]

/-- `BOQParser._categorize_smoke_detector_item`: first category (in
table order) with a keyword occurring in the lower-cased description,
else `"Other"`. -/
def categorize_smoke_detector_item (description : String) : String :=
  match categories.find?
      (fun ck => ck.2.any (fun kw => strContains (pyLower description) kw)) with
  | some ck => ck.1
  | none => "Other"

/-! ### Text-mode line matching

`parse_boq_structure` applies
`re.match(r'^(\d+\.?\d*)\s+(.+?)(?:\s+(\d+(?:\.\d+)?))?\s*$', line.strip())`
to every line.  The translation below follows Python's backtracking
semantics exactly:

* group 1 `\d+\.?\d*` is maximal-munch (the subsequent mandatory `\s+`
  cannot consume digits or a dot, so greedy matching with backtracking
  degenerates to: digits, an optional dot plus digits, and the next
  character must then be whitespace);
* `\s+` likewise takes the whole whitespace run (the following `.+?`
  only needs one character, and a shorter whitespace run can never turn
  a failing parse into a succeeding one: whenever some split succeeds,
  the maximal-munch split also succeeds);
* `(.+?)` is lazy: the shortest non-empty description prefix wins, where
  at each candidate length the engine first tries the optional
  quantity group `\s+(\d+(?:\.\d+)?)` (greedy `?`) and then the
  group-absent alternative `\s*$`. -/

/-- Does the tail `q` of a stripped line match `\s+(\d+(?:\.\d+)?)\s*$`?
If so, return the captured quantity digits. -/
def wsNumTail (q : List Char) : Option (List Char) :=
  let w := q.takeWhile isSpaceChar
  let r := q.dropWhile isSpaceChar
  if w.isEmpty then none
  else
    let d1 := r.takeWhile Char.isDigit
    let r1 := r.dropWhile Char.isDigit
    if d1.isEmpty then none
    else
      match r1 with
      | '.' :: r2 =>
        let d2 := r2.takeWhile Char.isDigit
        let r3 := r2.dropWhile Char.isDigit
        if d2.isEmpty then none
        else if r3.all isSpaceChar then some (d1 ++ '.' :: d2) else none
      | _ => if r1.all isSpaceChar then some d1 else none

/-- The lazy `(.+?)(?:\s+(\d+(?:\.\d+)?))?\s*$` tail: grow the
description one character at a time; after each character first try the
quantity group, then the empty-group-plus-`\s*$` alternative. -/
def descLoop (taken : List Char) : List Char → Option (List Char × Option (List Char))
  | [] => none
  | c :: rest =>
    match wsNumTail rest with
    | some n => some ((c :: taken).reverse, some n)
    | none =>
      if rest.all isSpaceChar then some ((c :: taken).reverse, none)
      else descLoop (c :: taken) rest

/-- The full line pattern applied to `line.strip()`: returns
`(item_no, description, quantity)` on a match. -/
def matchLine (line : String) : Option (List Char × List Char × Option (List Char)) :=
  let l := pyStrip line.data
  let d1 := l.takeWhile Char.isDigit
  let r1 := l.dropWhile Char.isDigit
  if d1.isEmpty then none
  else
    let step : Option (List Char × List Char) :=
      match r1 with
      | '.' :: r2 =>
        let d2 := r2.takeWhile Char.isDigit
        let r3 := r2.dropWhile Char.isDigit
        match r3.head? with
        | some c => if isSpaceChar c then some (d1 ++ '.' :: d2, r3) else none
        | none => none
      | _ =>
        match r1.head? with
        | some c => if isSpaceChar c then some (d1, r1) else none
        | none => none
    match step with
    | none => none
    | some (itemNo, rest) =>
      match descLoop [] (rest.dropWhile isSpaceChar) with
      | none => none
      | some (desc, qty) => some (itemNo, desc, qty)

/-- Python `text.split('\n')` (keeps empty pieces). -/
def splitOnChar (sep : Char) : List Char → List (List Char)
  | [] => [[]]
  | c :: t =>
    if c == sep then [] :: splitOnChar sep t
    else
      match splitOnChar sep t with
      | h :: r => (c :: h) :: r
      | [] => [[c]]

/-- One extracted BOQ line item (the dict appended by
`parse_boq_structure`). -/
structure LineItem where
  item_no : String
  description : String
  quantity : Option String
  unit : String
  category : String
deriving DecidableEq, Repr

/-- `BOQParser.parse_boq_structure`: split the text into lines, keep the
lines matching the item pattern, and build each item with
`_extract_unit` / `_categorize_smoke_detector_item` applied to the
description. -/
def parse_boq_structure (text : String) : List LineItem :=
  (splitOnChar '\n' text.data).filterMap (fun line =>
    (matchLine ⟨line⟩).map (fun m =>
      { item_no := ⟨m.1⟩
        description := ⟨m.2.1⟩
        quantity := m.2.2.map (fun q => (⟨q⟩ : String))
        unit := extract_unit ⟨m.2.1⟩
        category := categorize_smoke_detector_item ⟨m.2.1⟩ }))

/-! ### Table mode

`BOQParser.parse` prefers table mode: when `extract_tables` returned
tables, the rows are concatenated (each table's first row is its
header), a `Category` column is computed by applying
`_categorize_smoke_detector_item` to the second column
(`df.iloc[:, 1]`), and no other column is touched — in particular no
`Unit` column is created.  A row's unit value therefore exists only
when the source table itself carried a `Unit` column. -/

/-- One table-mode row: its header (column names), its cells, and the
computed category. -/
structure TableItem where
  columns : List String
  cells : List String
  category : String
deriving DecidableEq, Repr

/-- Table-mode `BOQParser.parse`: concatenate the data rows of all
tables and compute `Category` from the second column. -/
def parse_table_mode (tables : List (List (List String))) : List TableItem :=
  tables.flatMap (fun t =>
    match t with
    | [] => []
    | hdr :: rows =>
      rows.map (fun r =>
        { columns := hdr, cells := r,
          category := categorize_smoke_detector_item (r.getD 1 "") }))

/-- The unit value a table-mode row carries: the cell of the `Unit`
column when the table has one, and nothing otherwise. -/
def TableItem.unitVal (it : TableItem) : Option String :=
  (it.columns.findIdx? (· == "Unit")).bind (fun i => it.cells.get? i)

/-! ## DocumentTypeClassifier (`src/pdf_to_excel.py`, `convert_pdf_to_excel`)

The `doc_type == 'auto'` branch: the raw bytes are decoded permissively
(`str(content)`) and lower-cased; content phrases are checked first,
then the lower-cased basename, then the default.  `content` below is
the permissively decoded text, `fname` the basename. -/

inductive DocType where
  | boq
  | spec
deriving DecidableEq, Repr

/-- The auto-detection cascade of `convert_pdf_to_excel`. -/
def detect_doc_type (content fname : String) : DocType :=
  let contentLower := pyLower content
  if strContains contentLower "bill of quantities" || strContains contentLower "boq" then .boq
  else if strContains contentLower "specification" || strContains contentLower "spec sheet" then .spec
  else
    let filenameLower := pyLower fname
    if strContains filenameLower "boq" || strContains filenameLower "bill" then .boq
    else if strContains filenameLower "spec" then .spec
    else .boq

/-! ## A small regular-expression engine

`SpecSheetParser` uses `re.search` / `re.findall` with `re.IGNORECASE`
on a fixed set of patterns built from literals, the classes
`\s \d [A-Z0-9-] […]`, the quantifiers `* + ?` (greedy) and
alternation.  The engine below returns the list of possible
`(remaining input, captured group)` outcomes in exactly Python's
backtracking priority order (greedy quantifiers longest first,
alternation left first, optional present first), so taking the head of
the list is Python's match. -/

inductive RE where
  | eps
  | cls (p : Char → Bool)
  | strci (cs : List Char)
  | seqR (a b : RE)
  | altR (a b : RE)
  | optR (a : RE)
  | starCls (p : Char → Bool)
  | plusCls (p : Char → Bool)
  | grp (a : RE)

/-- Case-insensitive literal prefix: drop `lit` from the head of `s`. -/
def dropLitCi : List Char → List Char → Option (List Char)
  | s, [] => some s
  | [], _ :: _ => none
  | c :: cs, d :: ds => if c.toLower == d.toLower then dropLitCi cs ds else none

/-- Remainders after consuming a (greedy) run of `p`-characters,
longest consumption first. -/
def munchRests (p : Char → Bool) : List Char → List (List Char)
  | [] => [[]]
  | c :: cs =>
    if p c then munchRests p cs ++ [c :: cs] else [c :: cs]

/-- First-some combination of two optional captures (a sequence
propagates the capture of whichever side produced one). -/
def optOr : Option (List Char) → Option (List Char) → Option (List Char)
  | some x, _ => some x
  | none, y => y

/-- All ways a pattern can match a prefix of `s`, as
`(remaining, capture)` pairs in backtracking priority order. -/
def runRE : RE → List Char → List (List Char × Option (List Char))
  | .eps, s => [(s, none)]
  | .cls _, [] => []
  | .cls p, c :: cs => if p c then [(cs, none)] else []
  | .strci cs, s =>
    match dropLitCi s cs with
    | some r => [(r, none)]
    | none => []
  | .seqR a b, s =>
    (runRE a s).flatMap (fun pr =>
      (runRE b pr.1).map (fun qr => (qr.1, optOr pr.2 qr.2)))
  | .altR a b, s => runRE a s ++ runRE b s
  | .optR a, s => runRE a s ++ [(s, none)]
  | .starCls p, s => (munchRests p s).map (fun r => (r, none))
  | .plusCls _, [] => []
  | .plusCls p, c :: cs =>
    if p c then (munchRests p cs).map (fun r => (r, none)) else []
  | .grp a, s =>
    (runRE a s).map (fun pr => (pr.1, some (s.take (s.length - pr.1.length))))

/-- `re.search`: leftmost match position, then Python's priority order;
returns `(whole match, group 1)`. -/
def reSearch (re : RE) : List Char → Option (List Char × Option (List Char))
  | [] =>
    match (runRE re []).head? with
    | some (_, cap) => some ([], cap)
    | none => none
  | s@(_ :: t) =>
    match (runRE re s).head? with
    | some (rest, cap) => some (s.take (s.length - rest.length), cap)
    | none => reSearch re t

/-- Group-1 capture of `re.search` on a string. -/
def reSearchCap (re : RE) (text : String) : Option String :=
  (reSearch re text.data).bind (fun m => m.2.map (fun c => (⟨c⟩ : String)))

/-- Whole-match of `re.search` on a string (used by patterns with no
group). -/
def reSearchWhole (re : RE) (text : String) : Option String :=
  (reSearch re text.data).map (fun m => (⟨m.1⟩ : String))

/-- `re.findall` for a groupless pattern: leftmost non-overlapping
matches, scanning resumes after each (non-empty) match.  (None of the
source's findall patterns can match the empty string; an empty match
just advances the scan.) -/
def reFindAllAux (re : RE) : Nat → List Char → List (List Char)
  | 0, _ => []
  | Nat.succ n, s =>
    match (runRE re s).head? with
    | some (rest, _) =>
      let whole := s.take (s.length - rest.length)
      if whole.isEmpty then
        match s with
        | [] => []
        | _ :: t => reFindAllAux re n t
      else whole :: reFindAllAux re n rest
    | none =>
      match s with
      | [] => []
      | _ :: t => reFindAllAux re n t

/-- `re.findall` on a string. -/
def reFindAll (re : RE) (text : String) : List String :=
  (reFindAllAux re text.data.length text.data).map (fun m => (⟨m⟩ : String))

/-- Sequence a list of patterns. -/
def seqs (l : List RE) : RE :=
  l.foldr RE.seqR RE.eps

/-- `[:\s]` (colon or whitespace). -/
def isColonSpace (c : Char) : Bool :=
  c == ':' || isSpaceChar c

/-- `[:\s#]` (the `Part` pattern's separator class). -/
def isColonSpaceHash (c : Char) : Bool :=
  c == ':' || c == '#' || isSpaceChar c

/-- `[A-Z0-9-]` under `re.IGNORECASE`. -/
def isModelTokenChar (c : Char) : Bool :=
  c.isAlpha || c.isDigit || c == '-'

/-- Case-insensitive literal pattern from a string. -/
def litci (s : String) : RE :=
  .strci s.data

/-! ## SpecSheetParser (`src/spec_sheet_parser.py`) -/

/-- `[0-9.-]`. -/
def isNumDotDash (c : Char) : Bool :=
  c.isDigit || c == '.' || c == '-'

/-- `[0-9.]`. -/
def isNumDot (c : Char) : Bool :=
  c.isDigit || c == '.'

/-- `[0-9,]`. -/
def isNumComma (c : Char) : Bool :=
  c.isDigit || c == ','

/-- `[CF]` under `re.IGNORECASE`. -/
def isCF (c : Char) : Bool :=
  c.toLower == 'c' || c.toLower == 'f'

/-- `[x×]` under `re.IGNORECASE`. -/
def isXTimes (c : Char) : Bool :=
  c.toLower == 'x' || c == '×'

/-- `Model[:\s]+([A-Z0-9-]+)`. -/
def reModel : RE :=
  seqs [litci "Model", .plusCls isColonSpace, .grp (.plusCls isModelTokenChar)]

/-- `Part[:\s#]+([A-Z0-9-]+)`. -/
def rePart : RE :=
  seqs [litci "Part", .plusCls isColonSpaceHash, .grp (.plusCls isModelTokenChar)]

/-- `SKU[:\s]+([A-Z0-9-]+)`. -/
def reSku : RE :=
  seqs [litci "SKU", .plusCls isColonSpace, .grp (.plusCls isModelTokenChar)]

/-- The ordered `model_patterns` list of `extract_product_info`. -/
def model_patterns : List RE :=
  [reModel, rePart, reSku]

/-- The `Model Number` produced by `extract_product_info`: first
pattern (in order) whose `re.search` succeeds wins and stops the loop;
the initial value is the empty string. -/
def model_number (text : String) : String :=
  (model_patterns.findSome? (fun re => reSearchCap re text)).getD ""

/-- The ordered `product_types` list of `extract_product_info`. -/
def product_types : List String :=
  ["smoke detector", "heat detector", "control panel", "notification device",
   "horn", "strobe", "pull station", "duct detector", "beam detector"]

/-- The `Product Type` produced by `extract_product_info`: first type
phrase occurring in the lower-cased text, title-cased; initially the
empty string. -/
def product_type (text : String) : String :=
  ((product_types.find? (fun p => strContains (pyLower text) p)).map pyTitle).getD ""

/-- The `info` dict built by `extract_product_info` (insertion order;
`Product Name` and `Manufacturer` are initialised empty and never
updated). -/
def product_info (text : String) : List (String × String) :=
  [("Product Name", ""),
   ("Model Number", model_number text),
   ("Manufacturer", ""),
   ("Product Type", product_type text)]

/-- The `patterns` dict of `extract_technical_specs`, in insertion
order, with each regular expression transcribed. -/
def tech_patterns : List (String × RE) :=
  [("Operating Voltage",
      seqs [.optR (seqs [litci "Operating", .plusCls isSpaceChar]),
            litci "Voltage", .plusCls isColonSpace,
            .grp (seqs [.plusCls isNumDotDash, .starCls isSpaceChar,
                        .altR (litci "V") (.altR (litci "VAC") (litci "VDC"))])]),
   ("Current Draw",
      seqs [litci "Current", .plusCls isColonSpace,
            .grp (seqs [.plusCls isNumDotDash, .starCls isSpaceChar,
                        .altR (litci "mA") (litci "A")])]),
   ("Temperature Range",
      seqs [litci "Temperature", .plusCls isColonSpace,
            .grp (seqs [.optR (.cls (· == '-')), .plusCls Char.isDigit,
                        .optR (.cls (· == '°')), .starCls isSpaceChar,
                        .optR (.cls isCF), .starCls isSpaceChar,
                        litci "to", .starCls isSpaceChar,
                        .optR (.cls (· == '-')), .plusCls Char.isDigit,
                        .optR (.cls (· == '°')), .starCls isSpaceChar,
                        .cls isCF])]),
   ("Humidity Range",
      seqs [litci "Humidity", .plusCls isColonSpace,
            .grp (seqs [.plusCls Char.isDigit, .optR (.cls (· == '%')),
                        .starCls isSpaceChar, litci "to", .starCls isSpaceChar,
                        .plusCls Char.isDigit, .cls (· == '%')])]),
   ("Dimensions",
      seqs [litci "Dimensions", .plusCls isColonSpace,
            .grp (seqs [.plusCls isNumDot, .starCls isSpaceChar, .cls isXTimes,
                        .starCls isSpaceChar, .plusCls isNumDot, .starCls isSpaceChar,
                        .optR (.cls isXTimes), .starCls isSpaceChar, .starCls isNumDot,
                        .starCls isSpaceChar,
                        .altR (litci "in") (.altR (litci "mm") (litci "cm"))])]),
   ("Weight",
      seqs [litci "Weight", .plusCls isColonSpace,
            .grp (seqs [.plusCls isNumDot, .starCls isSpaceChar,
                        .altR (litci "kg") (.altR (litci "g")
                          (.altR (litci "lb") (litci "oz")))])]),
   ("Coverage Area",
      seqs [litci "Coverage", .plusCls isColonSpace,
            .grp (seqs [.plusCls isNumComma, .starCls isSpaceChar,
                        .altR (seqs [litci "sq", .optR (.cls (· == '.')),
                                     .starCls isSpaceChar, litci "ft"])
                          (.altR (litci "ft²") (litci "m²"))])]),
   ("Response Time",
      seqs [litci "Response", .plusCls isColonSpace,
            .grp (seqs [.plusCls isNumDot, .starCls isSpaceChar,
                        .altR (litci "sec") (.altR (litci "seconds")
                          (.altR (litci "min") (litci "minutes")))])])]

/-- `extract_technical_specs`: every pattern is searched independently;
the matches are collected in dict insertion order. -/
def extract_technical_specs (text : String) : List (String × String) :=
  tech_patterns.filterMap (fun nr => (reSearchCap nr.2 text).map (fun v => (nr.1, v)))

/-- `UL\s*\d+[A-Z]?`. -/
def reUL : RE :=
  seqs [litci "UL", .starCls isSpaceChar, .plusCls Char.isDigit, .optR (.cls Char.isAlpha)]

/-- `NFPA\s*\d+`. -/
def reNFPA : RE :=
  seqs [litci "NFPA", .starCls isSpaceChar, .plusCls Char.isDigit]

/-- `FM\s*Approved`. -/
def reFM : RE :=
  seqs [litci "FM", .starCls isSpaceChar, litci "Approved"]

/-- `CE\s*Certified`. -/
def reCE : RE :=
  seqs [litci "CE", .starCls isSpaceChar, litci "Certified"]

/-- `EN\s*\d+`. -/
def reEN : RE :=
  seqs [litci "EN", .starCls isSpaceChar, .plusCls Char.isDigit]

/-- `ISO\s*\d+`. -/
def reISO : RE :=
  seqs [litci "ISO", .starCls isSpaceChar, .plusCls Char.isDigit]

/-- `BS\s*\d+`. -/
def reBS : RE :=
  seqs [litci "BS", .starCls isSpaceChar, .plusCls Char.isDigit]

/-- `CSA\s*Certified`. -/
def reCSA : RE :=
  seqs [litci "CSA", .starCls isSpaceChar, litci "Certified"]

/-- The `standard_patterns` list of `extract_standards_compliance`. -/
def standard_patterns : List RE :=
  [reUL, reNFPA, reFM, reCE, reEN, reISO, reBS, reCSA]

/-- `extract_standards_compliance`: findall every pattern, upper-case
every match, collapse duplicates with `list(set(...))`.  The Python
set iteration order is unspecified; the collapse is modelled as
`List.dedup` (first occurrence kept), which realises one admissible
order. -/
def extract_standards_compliance (text : String) : List String :=
  (standard_patterns.flatMap (fun re => (reFindAll re text).map pyUpper)).dedup

/-- The `feature_keywords` list of `extract_features`. -/
def feature_keywords : List String :=
  ["addressable", "wireless", "photoelectric", "ionization",
   "multi-sensor", "dual sensor", "heat detection", "smoke detection",
   "tamper resistant", "led indicator", "test button", "low battery",
   "self-diagnostic", "drift compensation", "alarm memory"]

/-- `extract_features`: every keyword present in the lower-cased text
contributes its title-cased form, in list order. -/
def extract_features (text : String) : List String :=
  (feature_keywords.filter (fun kw => strContains (pyLower text) kw)).map pyTitle

/-- One row of the DataFrame built by `SpecSheetParser.parse`. -/
structure SpecRecord where
  category : String
  specification : String
  value : String
deriving DecidableEq, Repr

/-- Python `', '.join(...)`. -/
def joinComma (l : List String) : String :=
  String.intercalate ", " l

/-- `SpecSheetParser.parse`: the `data` list, in emission order.  The
two Product Information records are appended unconditionally with
`info.get(key, 'N/A')`; the Compliance and Features records only when
their lists are non-empty. -/
def spec_parse (text : String) : List SpecRecord :=
  let info := product_info text
  let tech := extract_technical_specs text
  let standards := extract_standards_compliance text
  let features := extract_features text
  [⟨"Product Information", "Model Number", (info.lookup "Model Number").getD "N/A"⟩,
   ⟨"Product Information", "Product Type", (info.lookup "Product Type").getD "N/A"⟩]
   ++ tech.map (fun nv => ⟨"Technical Specifications", nv.1, nv.2⟩)
   ++ (if standards.isEmpty then [] else [⟨"Compliance", "Standards", joinComma standards⟩])
   ++ (if features.isEmpty then [] else [⟨"Features", "Key Features", joinComma features⟩])

/-! ## ExcelGenerator (`src/excel_generator.py`, `create_boq_sheet`)

A worksheet is a function from (row, column) to a cell value.  The two
formulas the sheet writes — `=C{row}*F{row}` in each data row's Total
Price cell and `=SUM(G{start}:G{last})` in the grand-total cell — are
represented structurally (`mulCF r` and `sumG lo hi`), and a small
evaluator gives them spreadsheet semantics: an empty cell or text cell
counts as 0 inside `SUM`, and the per-row product multiplies the
numeric values of columns C (quantity) and F (unit price).  The
generation timestamp cell `A2` is modelled as a fixed label (its text
depends on `datetime.now()` and carries no data). -/

inductive CellVal where
  | empty
  | num (q : ℚ)
  | str (s : String)
  | mulCF (r : ℕ)
  | sumG (lo hi : ℕ)
deriving DecidableEq

/-- One row of the DataFrame handed to `create_boq_sheet`: the values
written into columns A, B, C and the optional `Unit` / `Category`
fields read with `row.get('Unit', 'NOS')` / `row.get('Category',
'Other')`. -/
structure BoqRowData where
  item_no : CellVal
  description : CellVal
  quantity : CellVal
  unit : Option String
  category : Option String

/-- `header_row = 4` in `create_boq_sheet`. -/
def header_row : ℕ := 4

/-- `data_start_row = header_row + 1`. -/
def data_start_row : ℕ := 5

/-- The column headers written on row 4. -/
def boq_headers : List String :=
  ["Item No", "Description", "Quantity", "Unit", "Category", "Unit Price", "Total Price"]

/-- A default row for out-of-range `getD` lookups (guarded by the
range test, it is never read). -/
def dfltRow : BoqRowData :=
  { item_no := .empty, description := .empty, quantity := .empty,
    unit := none, category := none }

/-- `ExcelGenerator.create_boq_sheet`: title, headers, one sheet row
per DataFrame row (columns F and G holding the unit price 0 and the
`=C*F` formula), and the `TOTAL:` row two rows below the data with the
`=SUM(G{data_start}:G{last_data_row})` formula, where `last_data_row =
data_start_row + len(df)`. -/
def create_boq_sheet (df : List BoqRowData) (r c : ℕ) : CellVal :=
  let n := df.length
  if data_start_row ≤ r ∧ r < data_start_row + n then
    let row := df.getD (r - data_start_row) dfltRow
    match c with
    | 1 => row.item_no
    | 2 => row.description
    | 3 => row.quantity
    | 4 => .str (row.unit.getD "NOS")
    | 5 => .str (row.category.getD "Other")
    | 6 => .num 0
    | 7 => .mulCF r
    | _ => .empty
  else if r = header_row ∧ 1 ≤ c ∧ c ≤ 7 then .str (boq_headers.getD (c - 1) "")
  else if r = 1 ∧ c = 1 then .str "BILL OF QUANTITIES - SMOKE DETECTION SYSTEM"
  else if r = 2 ∧ c = 1 then .str "Generated"
  else if r = data_start_row + n + 2 ∧ c = 6 then .str "TOTAL:"
  else if r = data_start_row + n + 2 ∧ c = 7 then .sumG data_start_row (data_start_row + n)
  else .empty

/-- Overwrite one cell (the user editing the workbook). -/
def updCell (s : ℕ → ℕ → CellVal) (r₀ c₀ : ℕ) (v : CellVal) : ℕ → ℕ → CellVal :=
  fun r c => if r = r₀ ∧ c = c₀ then v else s r c

/-- The sheet after the unit-price column has been edited to hold
`p i` in data row `i` (every other cell untouched). -/
def withPrices (df : List BoqRowData) (p : ℕ → ℚ) : ℕ → ℕ → CellVal :=
  fun r c =>
    if c = 6 ∧ data_start_row ≤ r ∧ r < data_start_row + df.length then .num (p (r - data_start_row))
    else create_boq_sheet df r c

/-- Numeric value of a plain cell (text and empty count as 0, as SUM
and arithmetic coercion treat them). -/
def evalBase (s : ℕ → ℕ → CellVal) (r c : ℕ) : ℚ :=
  match s r c with
  | .num q => q
  | _ => 0

/-- Evaluate a cell that is not a SUM formula. -/
def evalNoSum (s : ℕ → ℕ → CellVal) (r c : ℕ) : ℚ :=
  match s r c with
  | .num q => q
  | .mulCF row => evalBase s row 3 * evalBase s row 6
  | _ => 0

/-- Evaluate a cell, formulas included: `=SUM(G{lo}:G{hi})` sums the
evaluated G-column cells of the (inclusive) row range. -/
def evalCell (s : ℕ → ℕ → CellVal) (r c : ℕ) : ℚ :=
  match s r c with
  | .num q => q
  | .mulCF row => evalBase s row 3 * evalBase s row 6
  | .sumG lo hi => ((List.range (hi + 1 - lo)).map (fun i => evalNoSum s (lo + i) 7)).sum
  | _ => 0

/-! ## Remaining fixtures and conversion glue -/

/-- The ten fixture descriptions of
`test_converter.create_sample_boq_data` (in input order). -/
def sample_descriptions : List String :=
  ["Addressable Photoelectric Smoke Detector, 24VDC",
   "Addressable Heat Detector, Fixed Temperature 135°F",
   "Manual Pull Station, Single Action, Red",
   "Horn/Strobe Notification Device, 24VDC, Red",
   "Fire Alarm Control Panel, 8-Zone Addressable",
   "Remote Annunciator Panel, LCD Display",
   "Duct Smoke Detector with Housing",
   "Fire Alarm Wire, 18/2 FPLR, Red",
   "Conduit and Fittings for Installation",
   "Smoke Detector Test Kit with Aerosol Spray"]

/-- A default `LineItem` for out-of-range `getD` lookups. -/
def dfltItem : LineItem :=
  { item_no := "", description := "", quantity := none, unit := "", category := "" }

/-- The `spec` branch of `convert_pdf_to_excel` warns and aborts
(`return False`) exactly when `SpecSheetParser.parse` produced an
empty DataFrame (`if df.empty`). -/
def spec_conversion_empty_warning (text : String) : Bool :=
  (spec_parse text).isEmpty

/-- Two-row BOQ fixture (quantities 4 and 10) used to instantiate the
grand-total theorem. -/
def df2 : List BoqRowData :=
  [{ item_no := .str "1", description := .str "Smoke Detector", quantity := .num 4,
     unit := some "NOS", category := some "Smoke Detectors" },
   { item_no := .str "2", description := .str "Fire Alarm Wire", quantity := .num 10,
     unit := some "FT", category := some "Installation Materials" }]

/-- Quantities of `df2`. -/
def qf2 : ℕ → ℚ :=
  fun i => if i = 0 then 4 else 10

/-- Unit prices 2.50 and 1.00 for `df2`. -/
def p2 : ℕ → ℚ :=
  fun i => if i = 0 then (5 : ℚ) / 2 else 1

/-! ## Shared lemmas -/

/-- A `for`-loop scan with `break` (`List.find?`) returns the entry at
index `i` when that entry satisfies the predicate and no earlier entry
does. -/
theorem find?_eq_of_first {α : Type} (l : List α) (p : α → Bool) (d : α) :
    ∀ i, i < l.length → p (l.getD i d) = true →
      (∀ j, j < i → p (l.getD j d) = false) →
      l.find? p = some (l.getD i d) := by
  induction l with
  | nil => intro i hi; simp at hi
  | cons a t ih =>
    intro i hi hp hmin
    cases i with
    | zero =>
      simp only [List.getD_cons_zero] at hp ⊢
      simp [List.find?_cons_of_pos, hp]
    | succ k =>
      have ha : p a = false := by
        have := hmin 0 (Nat.succ_pos k)
        simpa using this
      simp only [List.getD_cons_succ] at hp ⊢
      rw [List.find?_cons_of_neg _ (by simp [ha])]
      exact ih k (by simpa using hi) hp
        (fun j hj => by simpa using hmin (j + 1) (Nat.succ_lt_succ hj))

/-- `List.find?` returns `none` when no entry satisfies the predicate. -/
theorem find?_eq_none_of_all {α : Type} (l : List α) (p : α → Bool)
    (h : ∀ x ∈ l, p x = false) : l.find? p = none := by
  rw [List.find?_eq_none]
  intro x hx
  simp [h x hx]

/-- `_extract_unit` never returns the empty string. -/
theorem extract_unit_ne_empty (d : String) : extract_unit d ≠ "" := by
  unfold extract_unit
  cases h : units.find? (fun u => strContains (pyLower d) u) with
  | none => decide
  | some u =>
    have hu : u ∈ units := List.mem_of_find?_eq_some h
    fin_cases hu <;> decide

/-- `_categorize_smoke_detector_item` never returns the empty string. -/
theorem categorize_ne_empty (d : String) : categorize_smoke_detector_item d ≠ "" := by
  unfold categorize_smoke_detector_item
  cases h : categories.find?
      (fun ck => ck.2.any (fun kw => strContains (pyLower d) kw)) with
  | none => decide
  | some ck =>
    have hck : ck ∈ categories := List.mem_of_find?_eq_some h
    fin_cases hck <;> decide

/-- Membership in `parse_boq_structure` output comes from a matched
line, and every field is built by the extractors. -/
theorem parse_boq_structure_mem {text : String} {it : LineItem}
    (h : it ∈ parse_boq_structure text) :
    it.unit = extract_unit it.description ∧
    it.category = categorize_smoke_detector_item it.description := by
  unfold parse_boq_structure at h
  obtain ⟨line, -, hm⟩ := List.mem_filterMap.mp h
  obtain ⟨m, -, rfl⟩ := Option.map_eq_some'.mp hm
  exact ⟨rfl, rfl⟩

/-- Pointwise-equal functions map lists equally. -/
theorem map_congr_mem {α β : Type} (l : List α) (f g : α → β)
    (h : ∀ a ∈ l, f a = g a) : l.map f = l.map g := by
  induction l with
  | nil => rfl
  | cons a t ih =>
    simp only [List.map_cons]
    rw [h a (List.mem_cons_self a t), ih (fun x hx => h x (List.mem_cons_of_mem a hx))]

/-- Inside the data range, `create_boq_sheet` writes the row's cells
(column dispatch left as a match for the callers to reduce). -/
theorem create_data_cell (df : List BoqRowData) (i : ℕ) (hi : i < df.length) (c : ℕ) :
    create_boq_sheet df (data_start_row + i) c =
      (match c with
       | 1 => (df.getD i dfltRow).item_no
       | 2 => (df.getD i dfltRow).description
       | 3 => (df.getD i dfltRow).quantity
       | 4 => .str ((df.getD i dfltRow).unit.getD "NOS")
       | 5 => .str ((df.getD i dfltRow).category.getD "Other")
       | 6 => .num 0
       | 7 => .mulCF (data_start_row + i)
       | _ => .empty) := by
  simp only [create_boq_sheet, data_start_row, header_row]
  split_ifs with h1 h2 h3 h4 h5 h6
  · simp only [Nat.add_sub_cancel_left]
  all_goals omega

/-- The row one past the data block holds nothing in column G. -/
theorem create_end7 (df : List BoqRowData) :
    create_boq_sheet df (data_start_row + df.length) 7 = .empty := by
  simp only [create_boq_sheet, header_row, data_start_row]
  split_ifs with h1 h2 h3 h4 h5 h6 <;> first | rfl | omega

/-- The grand-total cell holds the `=SUM(G…)` formula over the range
`data_start_row .. data_start_row + len(df)`. -/
theorem create_total7 (df : List BoqRowData) :
    create_boq_sheet df (data_start_row + df.length + 2) 7 =
      .sumG data_start_row (data_start_row + df.length) := by
  simp only [create_boq_sheet, header_row, data_start_row]
  split_ifs with h1 h2 h3 h4 h5 h6
  · omega
  · omega
  · omega
  · omega
  · omega
  · rfl
  · exact absurd ⟨trivial, trivial⟩ h6

/-- Price edits leave every non-price column unchanged. -/
theorem withPrices_not6 (df : List BoqRowData) (p : ℕ → ℚ) (r c : ℕ) (hc : c ≠ 6) :
    withPrices df p r c = create_boq_sheet df r c := by
  simp only [withPrices]
  split_ifs with h
  · exact absurd h.1 hc
  · rfl

/-- The edited unit-price cell of data row `i`. -/
theorem withPrices_c6 (df : List BoqRowData) (p : ℕ → ℚ) (i : ℕ) (hi : i < df.length) :
    withPrices df p (data_start_row + i) 6 = .num (p i) := by
  simp only [withPrices, data_start_row]
  split_ifs with h
  · simp only [Nat.add_sub_cancel_left]
  · exact absurd ⟨trivial, by omega, by omega⟩ h

/-- `updCell` away from the edited coordinate. -/
theorem updCell_ne (s : ℕ → ℕ → CellVal) (r₀ c₀ : ℕ) (v : CellVal) (r c : ℕ)
    (h : ¬(r = r₀ ∧ c = c₀)) : updCell s r₀ c₀ v r c = s r c :=
  if_neg h

/-- `updCell` at the edited coordinate. -/
theorem updCell_at (s : ℕ → ℕ → CellVal) (r₀ c₀ : ℕ) (v : CellVal) :
    updCell s r₀ c₀ v r₀ c₀ = v :=
  if_pos ⟨rfl, rfl⟩

/-- Master evaluation lemma: on any sheet whose data rows hold
`=C*F` formulas, numeric quantities `qf` and numeric prices `π`, whose
row `data_start_row + n` is empty in column G, and whose grand-total
cell holds the `=SUM` formula, the grand total evaluates to
`Σ qf i * π i`. -/
theorem evalSum_of_cells (s : ℕ → ℕ → CellVal) (n : ℕ) (qf π : ℕ → ℚ)
    (h7 : ∀ i, i < n → s (data_start_row + i) 7 = .mulCF (data_start_row + i))
    (h3 : ∀ i, i < n → s (data_start_row + i) 3 = .num (qf i))
    (h6 : ∀ i, i < n → s (data_start_row + i) 6 = .num (π i))
    (hend : s (data_start_row + n) 7 = .empty)
    (htot : s (data_start_row + n + 2) 7 = .sumG data_start_row (data_start_row + n)) :
    evalCell s (data_start_row + n + 2) 7 =
      ((List.range n).map (fun i => qf i * π i)).sum := by
  have hn : data_start_row + n + 1 - data_start_row = n + 1 := by omega
  simp only [evalCell, htot, hn, List.range_succ, List.map_append, List.sum_append]
  have hlast : evalNoSum s (data_start_row + n) 7 = 0 := by
    simp [evalNoSum, hend]
  have hmain : (List.range n).map (fun i => evalNoSum s (data_start_row + i) 7) =
      (List.range n).map (fun i => qf i * π i) := by
    apply map_congr_mem
    intro i hi
    have hi' := List.mem_range.mp hi
    simp [evalNoSum, h7 i hi', evalBase, h3 i hi', h6 i hi']
  simp [hmain, hlast]

/-! ## Claim theorems -/

/-- C1: `CategoryClassifier` returns the first category, in the fixed
table order, one of whose keywords occurs (case-insensitively) in the
description; `"Other"` when no keyword occurs anywhere; and in
particular `"addressable heat detector"` is assigned to Smoke
Detectors (priority 1 beats System Components at priority 8). -/
theorem categorize_first_match (d : String) :
    (∀ i, i < categories.length →
      (categories.getD i ("", [])).2.any (fun kw => strContains (pyLower d) kw) = true →
      (∀ j, j < i →
        (categories.getD j ("", [])).2.any (fun kw => strContains (pyLower d) kw) = false) →
      categorize_smoke_detector_item d = (categories.getD i ("", [])).1)
    ∧ ((∀ ck ∈ categories, ck.2.any (fun kw => strContains (pyLower d) kw) = false) →
      categorize_smoke_detector_item d = "Other")
    ∧ categorize_smoke_detector_item "addressable heat detector" = "Smoke Detectors" := by
  refine ⟨?_, ?_, by decide⟩
  · intro i hi hp hmin
    unfold categorize_smoke_detector_item
    rw [find?_eq_of_first categories _ ("", []) i hi hp hmin]
  · intro h
    unfold categorize_smoke_detector_item
    rw [find?_eq_none_of_all categories _ h]

/-- Witness for C1: `"fire bell unit"` matches no Smoke Detectors or
Control Panels keyword and matches `"bell"` at index 2. -/
theorem categorize_first_match_w :
    categorize_smoke_detector_item "fire bell unit" = "Notification Devices" :=
  (categorize_first_match "fire bell unit").1 2 (by decide) (by decide) (by decide)

/-- C2 counterexample: applying the code's categorizer to the ten
fixture descriptions does NOT reproduce the fixture's hard-coded
`Category` column (items 7 and 10 both contain the priority-1 keyword
`"smoke detector"`). -/
theorem sample_fixture_categories_ce :
    sample_descriptions.map categorize_smoke_detector_item ≠
      ["Smoke Detectors", "Smoke Detectors", "Initiation Devices", "Notification Devices",
       "Control Panels", "Control Panels", "System Components", "Installation Materials",
       "Installation Materials", "Testing Equipment"] := by decide

/-- C2 amended: the categorizer maps the ten fixture descriptions to
this sequence — items 7 (`"Duct Smoke Detector with Housing"`) and 10
(`"Smoke Detector Test Kit with Aerosol Spray"`) yield
`"Smoke Detectors"`, not `"System Components"` / `"Testing
Equipment"`, because `"smoke detector"` is a substring and Smoke
Detectors is checked first. -/
theorem sample_fixture_categories :
    sample_descriptions.map categorize_smoke_detector_item =
      ["Smoke Detectors", "Smoke Detectors", "Initiation Devices", "Notification Devices",
       "Control Panels", "Control Panels", "Smoke Detectors", "Installation Materials",
       "Installation Materials", "Smoke Detectors"] := by decide

/-- C3: `UnitInferer` lower-cases the description, scans the ten unit
tokens in their fixed order, returns the upper-cased first token that
occurs as a substring, and `"NOS"` when none occurs. -/
theorem extract_unit_first_match (d : String) :
    (∀ i, i < units.length →
      strContains (pyLower d) (units.getD i "") = true →
      (∀ j, j < i → strContains (pyLower d) (units.getD j "") = false) →
      extract_unit d = pyUpper (units.getD i ""))
    ∧ ((∀ u ∈ units, strContains (pyLower d) u = false) → extract_unit d = "NOS") := by
  constructor
  · intro i hi hp hmin
    unfold extract_unit
    rw [find?_eq_of_first units _ "" i hi hp hmin]
  · intro h
    unfold extract_unit
    rw [find?_eq_none_of_all units _ h]

/-- Witness for C3: `"2 sets of boxes"` contains no earlier token and
contains `"set"` (index 4). -/
theorem extract_unit_first_match_w :
    extract_unit "2 sets of boxes" = "SET" :=
  (extract_unit_first_match "2 sets of boxes").1 4 (by decide) (by decide) (by decide)

/-- C4 counterexample: `UnitInferer("50 smoke detectors")` is not
`"NOS"` — the single-letter token `"m"` occurs inside `"smoke"` and is
reached before the default. -/
theorem unit_inferer_examples_ce :
    ¬ (extract_unit "1000 FT of FPLR wire" = "FT" ∧
       extract_unit "50 smoke detectors" = "NOS") := by decide

/-- C4 amended: `UnitInferer("1000 FT of FPLR wire") = "FT"`, and
`UnitInferer("50 smoke detectors") = "M"` (not the default: token
`"m"` is a substring of `"smoke"`). -/
theorem unit_inferer_examples :
    extract_unit "1000 FT of FPLR wire" = "FT" ∧
    extract_unit "50 smoke detectors" = "M" := by decide

/-- C5: the auto-detection cascade of `convert_pdf_to_excel` — content
BOQ phrases first, then content SPEC phrases, then filename BOQ
tokens, then filename `"spec"`, then the BOQ default; it always
returns one of the two types, and a body containing
`"bill of quantities"` wins over any filename. -/
theorem detect_doc_type_cases (content fname : String) :
    ((strContains (pyLower content) "bill of quantities" = true ∨
      strContains (pyLower content) "boq" = true) →
      detect_doc_type content fname = .boq)
    ∧ (strContains (pyLower content) "bill of quantities" = false →
       strContains (pyLower content) "boq" = false →
       (strContains (pyLower content) "specification" = true ∨
        strContains (pyLower content) "spec sheet" = true) →
       detect_doc_type content fname = .spec)
    ∧ (strContains (pyLower content) "bill of quantities" = false →
       strContains (pyLower content) "boq" = false →
       strContains (pyLower content) "specification" = false →
       strContains (pyLower content) "spec sheet" = false →
       (strContains (pyLower fname) "boq" = true ∨
        strContains (pyLower fname) "bill" = true) →
       detect_doc_type content fname = .boq)
    ∧ (strContains (pyLower content) "bill of quantities" = false →
       strContains (pyLower content) "boq" = false →
       strContains (pyLower content) "specification" = false →
       strContains (pyLower content) "spec sheet" = false →
       strContains (pyLower fname) "boq" = false →
       strContains (pyLower fname) "bill" = false →
       strContains (pyLower fname) "spec" = true →
       detect_doc_type content fname = .spec)
    ∧ (strContains (pyLower content) "bill of quantities" = false →
       strContains (pyLower content) "boq" = false →
       strContains (pyLower content) "specification" = false →
       strContains (pyLower content) "spec sheet" = false →
       strContains (pyLower fname) "boq" = false →
       strContains (pyLower fname) "bill" = false →
       strContains (pyLower fname) "spec" = false →
       detect_doc_type content fname = .boq)
    ∧ (detect_doc_type content fname = .boq ∨ detect_doc_type content fname = .spec) := by
  refine ⟨?_, ?_, ?_, ?_, ?_, ?_⟩
  · rintro (h | h) <;> simp [detect_doc_type, h]
  · rintro h1 h2 (h | h) <;> simp [detect_doc_type, h1, h2, h]
  · rintro h1 h2 h3 h4 (h | h) <;> simp [detect_doc_type, h1, h2, h3, h4, h]
  · intro h1 h2 h3 h4 h5 h6 h7
    simp [detect_doc_type, h1, h2, h3, h4, h5, h6, h7]
  · intro h1 h2 h3 h4 h5 h6 h7
    simp [detect_doc_type, h1, h2, h3, h4, h5, h6, h7]
  · cases h : detect_doc_type content fname with
    | boq => exact Or.inl rfl
    | spec => exact Or.inr rfl

/-- Witness for C5: a body containing `"Bill of Quantities"` paired
with a filename containing `"spec"` classifies as BOQ
(content priority). -/
theorem detect_doc_type_cases_w :
    detect_doc_type "see the attached Bill of Quantities" "spec.pdf" = .boq :=
  (detect_doc_type_cases "see the attached Bill of Quantities" "spec.pdf").1
    (Or.inl (by decide))

/-- C6 counterexample: in table mode the parser only computes the
`Category` column; a table without a `Unit` column yields an item
whose unit value is absent (`none`), so the "unit is always populated
in both modes" invariant fails. -/
theorem table_mode_unit_missing_ce :
    (parse_table_mode [[["Item No", "Description"], ["1", "smoke detector"]]]).map
        TableItem.unitVal = [none] ∧
    (parse_table_mode [[["Item No", "Description"], ["1", "smoke detector"]]]).map
        TableItem.category = ["Smoke Detectors"] := by decide

/-- C6 amended: every text-mode `LineItem` has `unit` and `category`
populated (never empty) by `_extract_unit` /
`_categorize_smoke_detector_item`, falling back to `"NOS"` / `"Other"`
when the description carries no signal; in table mode only `category`
is populated by the extractor (the unit cell exists only when the
source table has a `Unit` column). -/
theorem line_item_fields (text : String) :
    (∀ it ∈ parse_boq_structure text,
      it.unit = extract_unit it.description ∧
      it.category = categorize_smoke_detector_item it.description ∧
      it.unit ≠ "" ∧ it.category ≠ "" ∧
      ((∀ u ∈ units, strContains (pyLower it.description) u = false) → it.unit = "NOS") ∧
      ((∀ ck ∈ categories,
          ck.2.any (fun kw => strContains (pyLower it.description) kw) = false) →
        it.category = "Other"))
    ∧ (∀ tables : List (List (List String)), ∀ it ∈ parse_table_mode tables,
      it.category = categorize_smoke_detector_item (it.cells.getD 1 "") ∧
      it.category ≠ "") := by
  constructor
  · intro it hit
    obtain ⟨hu, hc⟩ := parse_boq_structure_mem hit
    refine ⟨hu, hc, hu ▸ extract_unit_ne_empty _, hc ▸ categorize_ne_empty _, ?_, ?_⟩
    · intro h
      rw [hu]
      unfold extract_unit
      rw [find?_eq_none_of_all units _ h]
    · intro h
      rw [hc]
      unfold categorize_smoke_detector_item
      rw [find?_eq_none_of_all categories _ h]
  · intro tables it hit
    unfold parse_table_mode at hit
    obtain ⟨t, -, hmem⟩ := List.mem_flatMap.mp hit
    match t with
    | [] => simp at hmem
    | hdr :: rows =>
      obtain ⟨r, -, rfl⟩ := List.mem_map.mp hmem
      exact ⟨rfl, categorize_ne_empty _⟩

/-- Witness for C6: the single item extracted from
`"1 smoke detector"` has its unit computed by `_extract_unit`. -/
theorem line_item_fields_w :
    ((parse_boq_structure "1 smoke detector").getD 0 dfltItem).unit =
      extract_unit ((parse_boq_structure "1 smoke detector").getD 0 dfltItem).description :=
  ((line_item_fields "1 smoke detector").1 _ (by decide)).1

/-- C7: compliance extraction collects the findall matches of all
eight standard patterns, upper-cases them and collapses duplicates
(set semantics: membership is exactly "some pattern matched it", and
the result has no duplicates); on `"UL 268, NFPA 72, FM Approved"`
(any casing) the three upper-cased codes survive and the single
Compliance record's value joins them. -/
theorem standards_set_semantics (text : String) :
    (∀ s, s ∈ extract_standards_compliance text ↔
      ∃ re ∈ standard_patterns, ∃ m ∈ reFindAll re text, pyUpper m = s)
    ∧ (extract_standards_compliance text).Nodup
    ∧ extract_standards_compliance "UL 268, NFPA 72, FM Approved" =
        ["UL 268", "NFPA 72", "FM APPROVED"]
    ∧ extract_standards_compliance "ul 268, nfpa 72, fm approved" =
        ["UL 268", "NFPA 72", "FM APPROVED"]
    ∧ spec_parse "UL 268, NFPA 72, FM Approved" =
        [⟨"Product Information", "Model Number", ""⟩,
         ⟨"Product Information", "Product Type", ""⟩,
         ⟨"Compliance", "Standards", "UL 268, NFPA 72, FM APPROVED"⟩] := by
  refine ⟨?_, List.nodup_dedup _, by decide, by decide, by decide⟩
  intro s
  simp [extract_standards_compliance, List.mem_dedup, List.mem_flatMap, List.mem_map]

/-- Witness for C7: `"UL 268"` is a member of the collected set for a
text matching the UL pattern, via the first pattern. -/
theorem standards_set_semantics_w :
    "UL 268" ∈ extract_standards_compliance "per ul 268 listing" :=
  ((standards_set_semantics "per ul 268 listing").1 "UL 268").mpr
    ⟨reUL, by simp [standard_patterns], "ul 268", by decide, by decide⟩

/-- C8 counterexample: a spec text *containing* `"Model: SD-2400A"`
need not yield that value — the greedy token capture of the first
match wins.  For `"Model: SD-2400AB"` no record at all has value
`"SD-2400A"`. -/
theorem model_number_containing_ce :
    strContains "Model: SD-2400AB" "Model: SD-2400A" = true ∧
    ∀ r ∈ spec_parse "Model: SD-2400AB", r.value ≠ "SD-2400A" := by decide

/-- C8 amended: the three model patterns are tried in order
`Model:`/`Part:`/`SKU:`; the first pattern whose search succeeds
determines the Model Number and stops the loop (later patterns are
never consulted, and the default is the empty string); for the spec
text `"Model: SD-2400A"` itself (where the first `Model` match
captures exactly that token) the Model Number record's value is
`"SD-2400A"`. -/
theorem model_number_pattern_order (text : String) :
    (∀ v, reSearchCap reModel text = some v → model_number text = v)
    ∧ (reSearchCap reModel text = none →
        ∀ v, reSearchCap rePart text = some v → model_number text = v)
    ∧ (reSearchCap reModel text = none → reSearchCap rePart text = none →
        ∀ v, reSearchCap reSku text = some v → model_number text = v)
    ∧ (reSearchCap reModel text = none → reSearchCap rePart text = none →
        reSearchCap reSku text = none → model_number text = "")
    ∧ (spec_parse "Model: SD-2400A").getD 0 ⟨"", "", ""⟩ =
        ⟨"Product Information", "Model Number", "SD-2400A"⟩ := by
  refine ⟨?_, ?_, ?_, ?_, by decide⟩
  · intro v h
    simp [model_number, model_patterns, List.findSome?, h]
  · intro h1 v h
    simp [model_number, model_patterns, List.findSome?, h1, h]
  · intro h1 h2 v h
    simp [model_number, model_patterns, List.findSome?, h1, h2, h]
  · intro h1 h2 h3
    simp [model_number, model_patterns, List.findSome?, h1, h2, h3]

/-- Witness for C8: on `"Model: SD-2400A"` the first pattern matches
with capture `"SD-2400A"`. -/
theorem model_number_pattern_order_w :
    model_number "Model: SD-2400A" = "SD-2400A" :=
  (model_number_pattern_order "Model: SD-2400A").1 "SD-2400A" (by decide)

/-- C9: in the BOQ sheet every data row's Total Price cell holds the
`=C*F` formula and its Unit Price cell the default 0; the grand-total
cell holds the `=SUM` formula; with any edited prices `p`, row `i`
evaluates to `quantity i * p i` and the grand total to their sum; the
unedited sheet is the `p = 0` instance; and a single further price
edit re-evaluates the grand total accordingly (the formulas are live —
nothing is re-extracted). -/
theorem boq_sheet_totals (df : List BoqRowData) (qf p : ℕ → ℚ)
    (hq : ∀ i, i < df.length → (df.getD i dfltRow).quantity = .num (qf i)) :
    (∀ i, i < df.length →
      create_boq_sheet df (data_start_row + i) 7 = .mulCF (data_start_row + i) ∧
      create_boq_sheet df (data_start_row + i) 6 = .num 0 ∧
      evalCell (withPrices df p) (data_start_row + i) 7 = qf i * p i)
    ∧ create_boq_sheet df (data_start_row + df.length + 2) 7 =
        .sumG data_start_row (data_start_row + df.length)
    ∧ evalCell (withPrices df p) (data_start_row + df.length + 2) 7 =
        ((List.range df.length).map (fun i => qf i * p i)).sum
    ∧ (∀ r c, withPrices df (fun _ => 0) r c = create_boq_sheet df r c)
    ∧ (∀ j, j < df.length → ∀ v : ℚ,
        evalCell (updCell (withPrices df p) (data_start_row + j) 6 (.num v))
            (data_start_row + df.length + 2) 7 =
          ((List.range df.length).map (fun i => qf i * (if i = j then v else p i))).sum) := by
  have F7 : ∀ i, i < df.length →
      withPrices df p (data_start_row + i) 7 = .mulCF (data_start_row + i) := by
    intro i hi
    rw [withPrices_not6 df p _ 7 (by omega)]
    exact create_data_cell df i hi 7
  have F3 : ∀ i, i < df.length →
      withPrices df p (data_start_row + i) 3 = .num (qf i) := by
    intro i hi
    rw [withPrices_not6 df p _ 3 (by omega), create_data_cell df i hi 3]
    exact hq i hi
  have F6 : ∀ i, i < df.length →
      withPrices df p (data_start_row + i) 6 = .num (p i) :=
    withPrices_c6 df p
  have Fend : withPrices df p (data_start_row + df.length) 7 = .empty := by
    rw [withPrices_not6 df p _ 7 (by omega)]
    exact create_end7 df
  have Ftot : withPrices df p (data_start_row + df.length + 2) 7 =
      .sumG data_start_row (data_start_row + df.length) := by
    rw [withPrices_not6 df p _ 7 (by omega)]
    exact create_total7 df
  refine ⟨?_, create_total7 df, ?_, ?_, ?_⟩
  · intro i hi
    refine ⟨create_data_cell df i hi 7, create_data_cell df i hi 6, ?_⟩
    simp [evalCell, F7 i hi, evalBase, F3 i hi, F6 i hi]
  · exact evalSum_of_cells (withPrices df p) df.length qf p F7 F3 F6 Fend Ftot
  · intro r c
    by_cases h : c = 6 ∧ data_start_row ≤ r ∧ r < data_start_row + df.length
    · obtain ⟨hc, hr1, hr2⟩ := h
      subst hc
      have hr : r = data_start_row + (r - data_start_row) := by omega
      rw [hr, withPrices_c6 df _ (r - data_start_row) (by omega),
        create_data_cell df (r - data_start_row) (by omega) 6]
    · simp only [withPrices]
      rw [if_neg h]
  · intro j hj v
    apply evalSum_of_cells
    · intro i hi
      rw [updCell_ne _ _ _ _ _ _ (by omega)]
      exact F7 i hi
    · intro i hi
      rw [updCell_ne _ _ _ _ _ _ (by omega)]
      exact F3 i hi
    · intro i hi
      by_cases hij : i = j
      · subst hij
        rw [updCell_at]
        simp
      · rw [updCell_ne _ _ _ _ _ _ (fun h => hij (by omega))]
        rw [F6 i hi]
        simp [hij]
    · rw [updCell_ne _ _ _ _ _ _ (by omega)]
      exact Fend
    · rw [updCell_ne _ _ _ _ _ _ (by omega)]
      exact Ftot

/-- Witness for C9: two rows with quantities 4 and 10 and unit prices
2.50 and 1.00 give grand total 20. -/
theorem boq_sheet_totals_w :
    evalCell (withPrices df2 p2) (data_start_row + df2.length + 2) 7 = 20 := by
  have hq : ∀ i, i < df2.length → (df2.getD i dfltRow).quantity = .num (qf2 i) := by decide
  have h := (boq_sheet_totals df2 qf2 p2 hq).2.2.1
  rw [h]
  norm_num [df2, List.range_succ, qf2, p2]

/-- C10: `SpecificationExtractor` output always begins with the Model
Number record followed by the Product Type record (values empty — not
`"N/A"` — when no pattern matched), hence it always has at least two
records and the empty-extraction warning branch of the conversion is
unreachable for specification documents. -/
theorem spec_parse_product_records (text : String) :
    (spec_parse text).take 2 =
      [⟨"Product Information", "Model Number", model_number text⟩,
       ⟨"Product Information", "Product Type", product_type text⟩]
    ∧ 2 ≤ (spec_parse text).length
    ∧ spec_conversion_empty_warning text = false
    ∧ (model_patterns.findSome? (fun re => reSearchCap re text) = none →
       (spec_parse text).getD 0 ⟨"", "", ""⟩ =
         ⟨"Product Information", "Model Number", ""⟩)
    ∧ (product_types.find? (fun pt => strContains (pyLower text) pt) = none →
       (spec_parse text).getD 1 ⟨"", "", ""⟩ =
         ⟨"Product Information", "Product Type", ""⟩) := by
  refine ⟨rfl, ?_, rfl, ?_, ?_⟩
  · show 2 ≤ (spec_parse text).length
    simp [spec_parse]
  · intro h
    have h0 : (spec_parse text).getD 0 ⟨"", "", ""⟩ =
        ⟨"Product Information", "Model Number", model_number text⟩ := rfl
    rw [h0, show model_number text = "" from by simp [model_number, h]]
  · intro h
    have h1 : (spec_parse text).getD 1 ⟨"", "", ""⟩ =
        ⟨"Product Information", "Product Type", product_type text⟩ := rfl
    rw [h1, show product_type text = "" from by simp [product_type, h]]

/-- Witness for C10: a body matching no model pattern still yields the
Model Number record, with the empty value. -/
theorem spec_parse_product_records_w :
    (spec_parse "plain body").getD 0 ⟨"", "", ""⟩ =
      ⟨"Product Information", "Model Number", ""⟩ :=
  (spec_parse_product_records "plain body").2.2.2.1 (by decide)

end Spec2Proof
